import Mathlib

/-!
Shallow embedding of the astra-personalday backend core
(Luna session metering, daily batch horoscope generation,
payment-webhook reconciliation, telegram link tokens),
with theorems checking the specification against the code.
-/

namespace Astra

/-- Python `int()` truncation toward zero. -/
def pyTrunc (q : ℚ) : ℤ := if 0 ≤ q then ⌊q⌋ else ⌈q⌉


/-- Python modulo on numbers: `a - b * floor(a / b)`. -/
def pymod (a b : ℚ) : ℚ := a - b * ⌊a / b⌋


/-- `max(1, int(duration_sec / 60) + (1 if duration_sec % 60 > 0 else 0))`
from `end_session`. -/
def minutesCharged (durationSec : ℚ) : ℤ :=
  max 1 (pyTrunc (durationSec / 60) + (if 0 < pymod durationSec 60 then 1 else 0))


/-! ## Luna session metering state (routers/luna.py)

The row store is modelled by association lists keyed by id.  External
collaborators (the language model, speech synthesis, the context builder)
are parameters of each operation; `modelCalls` counts invocations of the
text-completion model so that "the model is not invoked" is statable.
The RPCs `deduct_luna_minutes` / `add_luna_minutes` are database procedures
not present in the source tree and are modelled from the spec. -/

inductive SessionStatus where
  | active
  | paused
  | ended
deriving DecidableEq, Repr


inductive EndReason where
  | user_ended
  | time_expired
deriving DecidableEq, Repr


structure Subscription where
  luna_minutes_balance : ℤ
deriving DecidableEq, Repr


structure LunaSession where
  user_id : ℕ
  partner_id : Option ℕ
  status : SessionStatus
  voice_used : Bool
  context_snapshot : String
  messages_count : ℕ
  created_at : ℚ
  ended_at : Option ℚ
  ended_reason : Option EndReason
  duration_minutes : Option ℤ
  minutes_charged : Option ℤ
deriving DecidableEq, Repr


structure LunaMessage where
  session_id : ℕ
  user_id : ℕ
  role : String
  content : String
  audio_url : Option String
  tokens_used : Option ℕ
deriving DecidableEq, Repr


structure LunaSt where
  subscriptions : List (ℕ × Subscription)
  sessions : List (ℕ × LunaSession)
  messages : List LunaMessage
  nextId : ℕ
  modelCalls : ℕ
deriving DecidableEq, Repr


/-- `select(...).eq("user_id", uid).single()` on the subscriptions table. -/
def lookupSub (subs : List (ℕ × Subscription)) (uid : ℕ) : Option Subscription :=
  (subs.find? (fun p => decide (p.1 = uid))).map (·.2)


/-- `select(...).eq("id", sid).eq("user_id", uid).eq("status", "active").single()`. -/
def findActiveSession (sessions : List (ℕ × LunaSession)) (sid uid : ℕ) :
    Option LunaSession :=
  (sessions.find? (fun p =>
    decide (p.1 = sid ∧ p.2.user_id = uid ∧ p.2.status = SessionStatus.active))).map (·.2)


/-- `select(...).eq("id", sid).eq("user_id", uid).single()` — no status filter. -/
def findSession (sessions : List (ℕ × LunaSession)) (sid uid : ℕ) :
    Option LunaSession :=
  (sessions.find? (fun p => decide (p.1 = sid ∧ p.2.user_id = uid))).map (·.2)


/-- `update(fields).eq("id", sid)` on the sessions table. -/
def updateSessions (sessions : List (ℕ × LunaSession)) (sid : ℕ)
    (f : LunaSession → LunaSession) : List (ℕ × LunaSession) :=
  sessions.map (fun p => if p.1 = sid then (p.1, f p.2) else p)


/-- `update(fields).eq("user_id", uid)` on the subscriptions table. -/
def updateSubs (subs : List (ℕ × Subscription)) (uid : ℕ)
    (f : Subscription → Subscription) : List (ℕ × Subscription) :=
  subs.map (fun p => if p.1 = uid then (p.1, f p.2) else p)


/-- Modelled from the spec: the row-store RPC `deduct_luna_minutes`
(not part of the source tree) — "Minute balance — a per-subscription counter
of remaining metered-chat minutes, decremented by session end"; a delegated
atomic decrement of the caller's balance. -/
def deduct_luna_minutes (subs : List (ℕ × Subscription)) (uid : ℕ) (m : ℤ) :
    List (ℕ × Subscription) :=
  updateSubs subs uid (fun s => { s with luna_minutes_balance := s.luna_minutes_balance - m })


/-- The update dict `{"status": "paused", "ended_reason": "time_expired"}`
applied by `send_message` on balance exhaustion. -/
def pauseExpired (s : LunaSession) : LunaSession :=
  { s with status := SessionStatus.paused,
           ended_reason := some EndReason.time_expired }


/-- The update dict applied by `end_session` when closing a session. -/
def closeSession (now : ℚ) (m : ℤ) (s : LunaSession) : LunaSession :=
  { s with status := SessionStatus.ended, ended_at := some now,
           ended_reason := some EndReason.user_ended,
           duration_minutes := some m, minutes_charged := some m }


structure Http where
  status : ℕ
  detail : String
deriving DecidableEq, Repr


structure StartOut where
  session_id : ℕ
  minutes_available : ℤ
  started_at : ℚ
deriving DecidableEq, Repr


structure SendOut where
  reply : String
  audio_url : Option String
  minutes_remaining : ℤ
deriving DecidableEq, Repr


structure EndOut where
  ok : Bool
  duration_minutes : ℤ
  minutes_charged : ℤ
  minutes_remaining : ℤ
deriving DecidableEq, Repr


/-- `POST /session/start` (`start_session`).  `context` stands for the string
built by the read-only helper `build_user_context`; `now` is the row-store
`created_at` timestamp of the inserted row. -/
def start_session (st : LunaSt) (user_id : ℕ) (partner_id : Option ℕ)
    (use_voice : Bool) (context : String) (now : ℚ) :
    Except Http StartOut × LunaSt :=
  match lookupSub st.subscriptions user_id with
  | none => (.error ⟨403, "Nessun abbonamento trovato"⟩, st)
  | some sub =>
    if sub.luna_minutes_balance < 1 then
      (.error ⟨402, "Minuti Luna esauriti. Acquista un pacchetto per continuare."⟩, st)
    else
      let session : LunaSession :=
        { user_id := user_id, partner_id := partner_id,
          status := SessionStatus.active, voice_used := use_voice,
          context_snapshot := context, messages_count := 0,
          created_at := now, ended_at := none, ended_reason := none,
          duration_minutes := none, minutes_charged := none }
      (.ok ⟨st.nextId, sub.luna_minutes_balance, now⟩,
       { st with sessions := st.sessions ++ [(st.nextId, session)],
                 nextId := st.nextId + 1 })


/-- `POST /message` (`send_message`).  `reply_text` and `tokens_used` stand for
the text-completion response; `voiceResult` for the speech-synthesis outcome
(`generate_voice` returns an URL or `none` on failure). -/
def send_message (st : LunaSt) (user_id session_id : ℕ) (message : String)
    (reply_text : String) (tokens_used : ℕ) (voiceResult : Option String) :
    Except Http SendOut × LunaSt :=
  match findActiveSession st.sessions session_id user_id with
  | none => (.error ⟨404, "Sessione non trovata o già terminata"⟩, st)
  | some session =>
    let balanceLow : Bool :=
      match lookupSub st.subscriptions user_id with
      | none => true
      | some sub => decide (sub.luna_minutes_balance < 1)
    if balanceLow then
      (.error ⟨402, "Minuti Luna esauriti. Acquista un pacchetto per continuare."⟩,
       { st with sessions := updateSessions st.sessions session_id pauseExpired })
    else
      -- the text-completion model is invoked here
      let st1 := { st with modelCalls := st.modelCalls + 1 }
      let st2 := { st1 with messages := st1.messages ++
        [LunaMessage.mk session_id user_id "user" message none none] }
      let audio_url := if session.voice_used then voiceResult else none
      let st3 := { st2 with messages := st2.messages ++
        [LunaMessage.mk session_id user_id "assistant" reply_text audio_url (some tokens_used)] }
      let st4 := { st3 with sessions := updateSessions st3.sessions session_id (fun s =>
        { s with messages_count := session.messages_count + 1 }) }
      let bal : ℤ :=
        match lookupSub st4.subscriptions user_id with
        | some sub => sub.luna_minutes_balance
        | none => 0
      (.ok ⟨reply_text, audio_url, bal⟩, st4)


/-- `POST /session/end` (`end_session`).  `now` is the current wall-clock time. -/
def end_session (st : LunaSt) (user_id session_id : ℕ) (now : ℚ) :
    Except Http EndOut × LunaSt :=
  match findSession st.sessions session_id user_id with
  | none => (.error ⟨404, "Sessione non trovata"⟩, st)
  | some session =>
    let duration_sec : ℚ := now - session.created_at
    let duration_min : ℤ := minutesCharged duration_sec
    let st1 := { st with subscriptions :=
      deduct_luna_minutes st.subscriptions user_id duration_min }
    let st2 := { st1 with
      sessions := updateSessions st1.sessions session_id (closeSession now duration_min) }
    let bal : ℤ :=
      match lookupSub st2.subscriptions user_id with
      | some sub => sub.luna_minutes_balance
      | none => 0
    (.ok ⟨true, duration_min, duration_min, bal⟩, st2)


/-! ### Concrete witness states for the Luna metering claims -/

def lunaSessionA : LunaSession :=
  { user_id := 1, partner_id := none, status := SessionStatus.active,
    voice_used := false, context_snapshot := "ctx", messages_count := 0,
    created_at := 0, ended_at := none, ended_reason := none,
    duration_minutes := none, minutes_charged := none }


def lunaSessionEnded : LunaSession :=
  { lunaSessionA with status := SessionStatus.ended }


def lunaStOk : LunaSt :=
  { subscriptions := [(1, ⟨5⟩)], sessions := [(7, lunaSessionA)],
    messages := [], nextId := 8, modelCalls := 0 }


def lunaStLow : LunaSt := { lunaStOk with subscriptions := [(1, ⟨0⟩)] }


def lunaStEnded : LunaSt := { lunaStOk with sessions := [(7, lunaSessionEnded)] }


def lunaStNoSub : LunaSt := { lunaStOk with subscriptions := [] }


/-! ## Daily batch horoscope generation (routers/scheduler.py)

`generate_horoscope_text` is an external model call returning a parsed JSON
dict (or raising); it is a parameter `gen` of the job.  `get_transits_today`
is an external stateless call; its payload is the parameter `planetary`. -/

structure ProfileRow where
  id : ℕ
  is_active : Bool
  onboarding_completed : Bool
  birth_date : Option String
deriving DecidableEq, Repr


structure HoroscopeData where
  full_text : Option String
  section_general : Option String
  section_love : Option String
  section_work : Option String
  section_health : Option String
  overall_score : Option ℤ
deriving DecidableEq, Repr


structure DailyHoroscope where
  user_id : ℕ
  horoscope_date : String
  text_content : Option String
  section_general : Option String
  section_love : Option String
  section_work : Option String
  section_health : Option String
  overall_score : ℤ
  planetary_data : String
  status : String
  generated_at : String
deriving DecidableEq, Repr


structure JobError where
  user_id : ℕ
  error : String
deriving DecidableEq, Repr


structure JobRun where
  job_type : String
  job_date : String
  status : String
  completed_at : Option String
  users_processed : ℕ
  users_success : ℕ
  users_failed : ℕ
  error_log : List JobError
deriving DecidableEq, Repr


structure SchedSt where
  profiles : List ProfileRow
  daily_horoscopes : List DailyHoroscope
  scheduler_jobs : List (ℕ × JobRun)
  nextJobId : ℕ
deriving DecidableEq, Repr


/-- `select(...).eq("is_active", True).eq("onboarding_completed", True)
.not_.is_("birth_date", "null")`. -/
def eligibleUsers (profiles : List ProfileRow) : List ProfileRow :=
  profiles.filter (fun p => p.is_active && p.onboarding_completed && p.birth_date.isSome)


/-- `if existing:` — a horoscope row for `(uid, today)` exists. -/
def hasDH (dh : List DailyHoroscope) (uid : ℕ) (today : String) : Bool :=
  dh.any (fun h => decide (h.user_id = uid ∧ h.horoscope_date = today))


/-- Number of horoscope rows for `(uid, today)`. -/
def countDH (dh : List DailyHoroscope) (uid : ℕ) (today : String) : ℕ :=
  (dh.filter (fun h => decide (h.user_id = uid ∧ h.horoscope_date = today))).length


/-- The `daily_horoscopes` insert dict of `generate_daily_horoscopes`. -/
def mkDHRow (uid : ℕ) (today : String) (h : HoroscopeData) (planetary now : String) :
    DailyHoroscope :=
  { user_id := uid, horoscope_date := today,
    text_content := h.full_text,
    section_general := h.section_general, section_love := h.section_love,
    section_work := h.section_work, section_health := h.section_health,
    overall_score := h.overall_score.getD 3,
    planetary_data := planetary, status := "completed", generated_at := now }


/-- Loop accumulator: the horoscope table plus the run counters. -/
structure RunAcc where
  dh : List DailyHoroscope
  processed : ℕ
  success : ℕ
  failed : ℕ
  errors : List JobError
deriving DecidableEq, Repr


/-- The `for user in users:` loop of `generate_daily_horoscopes`: skip when a
row exists (counted processed and success), else call the model; on success
insert the row, on exception count the failure and append to the error list;
`processed` is incremented exactly once per user in every branch. -/
def processUsers (gen : ℕ → Except String HoroscopeData)
    (today planetary now : String) :
    List ProfileRow → RunAcc → RunAcc
  | [], acc => acc
  | u :: rest, acc =>
    if hasDH acc.dh u.id today then
      processUsers gen today planetary now rest
        { acc with processed := acc.processed + 1, success := acc.success + 1 }
    else
      match gen u.id with
      | .ok h =>
        processUsers gen today planetary now rest
          { acc with dh := acc.dh ++ [mkDHRow u.id today h planetary now],
                     processed := acc.processed + 1, success := acc.success + 1 }
      | .error e =>
        processUsers gen today planetary now rest
          { acc with processed := acc.processed + 1, failed := acc.failed + 1,
                     errors := acc.errors ++ [JobError.mk u.id e] }


def lookupJob (jobs : List (ℕ × JobRun)) (k : ℕ) : Option JobRun :=
  (jobs.find? (fun p => decide (p.1 = k))).map (·.2)


def updateJobs (jobs : List (ℕ × JobRun)) (k : ℕ) (f : JobRun → JobRun) :
    List (ℕ × JobRun) :=
  jobs.map (fun p => if p.1 = k then (p.1, f p.2) else p)


structure GenOut where
  ok : Bool
  date : String
  processed : ℕ
  success : ℕ
  failed : ℕ
deriving DecidableEq, Repr


/-- `POST /generate-daily` (`generate_daily_horoscopes`), after the cron-secret
check: insert a `running` job row, select eligible users, fetch one shared
transit snapshot, run the per-user loop, then update the job row with
terminal counts and the error log capped at 50 entries. -/
def generate_daily (st : SchedSt) (today planetary now : String)
    (gen : ℕ → Except String HoroscopeData) : GenOut × SchedSt :=
  let jobId := st.nextJobId
  let st0 : SchedSt := { st with
    scheduler_jobs := st.scheduler_jobs ++
      [(jobId, { job_type := "daily_generation", job_date := today,
                 status := "running", completed_at := none,
                 users_processed := 0, users_success := 0, users_failed := 0,
                 error_log := [] })],
    nextJobId := jobId + 1 }
  let users := eligibleUsers st0.profiles
  let acc := processUsers gen today planetary now users
    ⟨st0.daily_horoscopes, 0, 0, 0, []⟩
  let st1 : SchedSt := { st0 with
    daily_horoscopes := acc.dh,
    scheduler_jobs := updateJobs st0.scheduler_jobs jobId (fun j =>
      { j with status := "completed", completed_at := some now,
               users_processed := acc.processed, users_success := acc.success,
               users_failed := acc.failed,
               error_log := acc.errors.take 50 }) }
  (⟨true, today, acc.processed, acc.success, acc.failed⟩, st1)


/-- The per-user failure predicate: the model call fails and no row existed. -/
def genFails (gen : ℕ → Except String HoroscopeData) (uid : ℕ) : Bool :=
  match gen uid with
  | .error _ => true
  | .ok _ => false


/-- Number of users of `us` whose iteration fails against table `dh`. -/
def countFail (gen : ℕ → Except String HoroscopeData) (today : String)
    (dh : List DailyHoroscope) (us : List ProfileRow) : ℕ :=
  (us.filter (fun u => !hasDH dh u.id today && genFails gen u.id)).length


/-! ### Concrete witness states for the batch-generation claims -/

def hDataA : HoroscopeData :=
  ⟨some "testo", some "generale", some "amore", some "lavoro", some "salute", some 4⟩


def profA : ProfileRow := ⟨1, true, true, some "1990-01-01"⟩


def profB : ProfileRow := ⟨2, true, true, some "1991-02-02"⟩


def schedSt0 : SchedSt := ⟨[profA, profB], [], [], 0⟩


def genOk : ℕ → Except String HoroscopeData := fun _ => .ok hDataA


def genOneFail : ℕ → Except String HoroscopeData :=
  fun uid => if uid = 2 then .error "model timeout" else .ok hDataA


/-! ## Payment webhook reconciliation (routers/webhooks.py, stripe_webhook)

`stripe.Webhook.construct_event` is the provider's signature verification;
its outcome is the parameter `constructed` (an exception or the parsed
event).  The RPC `add_luna_minutes` is a database procedure not in the
source tree and is modelled from the spec. -/

structure WSub where
  user_id : ℕ
  luna_minutes_balance : ℤ
  status : String
  stripe_customer_id : Option String
  stripe_subscription_id : Option String
  cancelled_at : Option String
deriving DecidableEq, Repr


structure MinutePack where
  id : ℕ
  order_status : String
  stripe_payment_intent : Option String
  paid_at : Option String
  is_consumed : Bool
deriving DecidableEq, Repr


structure ServiceOrder where
  id : ℕ
  order_status : String
  paid_at : Option String
  status : String
deriving DecidableEq, Repr


structure PaySt where
  subscriptions : List WSub
  luna_minute_packs : List MinutePack
  services_orders : List ServiceOrder
deriving DecidableEq, Repr


/-- The fields of a parsed provider event used by the handler:
`event["type"]`, `event["data"]["object"]` and its `metadata`. -/
structure StripeEvent where
  etype : String
  meta_user_id : Option ℕ
  meta_pack_id : Option String
  meta_order_id : Option ℕ
  meta_minutes : ℕ
  meta_service_type : Option String
  payment_intent : Option String
  object_id : String
  customer : String
deriving DecidableEq, Repr


structure Ack where
  ok : Bool
deriving DecidableEq, Repr


/-- Modelled from the spec: the row-store RPC `add_luna_minutes`
(not part of the source tree) — "Minute balance — ... incremented by
purchase or admin grant"; a delegated atomic increment. -/
def add_luna_minutes (subs : List WSub) (uid : ℕ) (m : ℕ) : List WSub :=
  subs.map (fun s => if s.user_id = uid then
    { s with luna_minutes_balance := s.luna_minutes_balance + m } else s)


/-- `POST /stripe` (`stripe_webhook`): signature verification first, then
dispatch on the event kind; unrecognized kinds are acknowledged unchanged. -/
def stripe_webhook (st : PaySt) (constructed : Except String StripeEvent) :
    Except Http Ack × PaySt :=
  match constructed with
  | .error e => (.error ⟨400, "Webhook signature invalida: " ++ e⟩, st)
  | .ok event =>
    if event.etype = "checkout.session.completed" then
      match event.meta_user_id with
      | none => (.ok ⟨true⟩, st)
      | some uid =>
        if event.meta_pack_id.isSome then
          let st1 : PaySt := { st with
            luna_minute_packs := st.luna_minute_packs.map (fun o =>
              if some o.id = event.meta_order_id then
                { o with order_status := "paid",
                         stripe_payment_intent := event.payment_intent,
                         paid_at := some "NOW()",
                         is_consumed := false }
              else o) }
          (.ok ⟨true⟩, { st1 with
            subscriptions := add_luna_minutes st1.subscriptions uid event.meta_minutes })
        else if event.meta_service_type.isSome then
          (.ok ⟨true⟩, { st with
            services_orders := st.services_orders.map (fun o =>
              if some o.id = event.meta_order_id then
                { o with order_status := "paid", paid_at := some "NOW()",
                         status := "pending" }
              else o) })
        else (.ok ⟨true⟩, st)
    else if event.etype = "customer.subscription.deleted" then
      (.ok ⟨true⟩, { st with
        subscriptions := st.subscriptions.map (fun s =>
          if s.stripe_subscription_id = some event.object_id then
            { s with status := "cancelled", cancelled_at := some "NOW()" }
          else s) })
    else if event.etype = "invoice.payment_failed" then
      (.ok ⟨true⟩, { st with
        subscriptions := st.subscriptions.map (fun s =>
          if s.stripe_customer_id = some event.customer then
            { s with status := "paused" }
          else s) })
    else (.ok ⟨true⟩, st)


def payStA : PaySt :=
  ⟨[⟨1, 5, "active", some "cus_1", some "sub_1", none⟩],
   [⟨10, "pending", none, none, false⟩],
   [⟨20, "pending", none, "new"⟩]⟩


def eventUnknown : StripeEvent :=
  ⟨"payment_intent.created", none, none, none, 0, none, none, "", ""⟩


/-! ## Telegram link tokens (telegram.py, telegram_webhook `/start <token>`)

Only the token branch of the webhook dispatcher is embedded; outbound
`send_telegram_message` calls are external, captured by the returned reply
kind. -/

structure TgProfile where
  id : ℕ
  first_name : String
  telegram_link_token : Option String
deriving DecidableEq, Repr


structure TgConn where
  user_id : ℕ
  chat_id : ℤ
  username : String
  first_name : String
  status : String
  connected_at : Option String
deriving DecidableEq, Repr


structure TgSt where
  profiles : List TgProfile
  connections : List TgConn
deriving DecidableEq, Repr


inductive TgReply where
  | invalidCode
  | connected (name : String)
deriving DecidableEq, Repr


/-- The `/start <token>` branch of `telegram_webhook`: look the token up in
profiles; if absent reply with the invalid-code message and change nothing;
else create or update the connection for this chat and clear the token on the
matched profile. -/
def handleStartToken (st : TgSt) (chatId : ℤ)
    (username firstName token now : String) : TgSt × TgReply :=
  match st.profiles.filter (fun p => decide (p.telegram_link_token = some token)) with
  | [] => (st, .invalidCode)
  | p0 :: _ =>
    let user_id := p0.id
    let user_name := p0.first_name
    let existing := st.connections.filter (fun c => decide (c.chat_id = chatId))
    let conns :=
      if existing.isEmpty then
        st.connections ++ [⟨user_id, chatId, username, firstName, "active", none⟩]
      else
        st.connections.map (fun c => if c.chat_id = chatId then
          { c with user_id := user_id, username := username,
                   first_name := firstName, status := "active",
                   connected_at := some now }
          else c)
    let profiles := st.profiles.map (fun p => if p.id = user_id then
      { p with telegram_link_token := none } else p)
    ({ profiles := profiles, connections := conns }, .connected user_name)


def tgSt0 : TgSt :=
  ⟨[⟨1, "Anna", some "tok123"⟩, ⟨2, "Bruno", none⟩], []⟩


/-! ## Theorems -/

theorem pymod_sixty (d : ℚ) : pymod d 60 = 60 * (d / 60 - ⌊d / 60⌋) := by
  unfold pymod
  have h : (60 : ℚ) * (d / 60) = d := by ring
  linarith


theorem minutesCharged_eq_ceil (d : ℚ) : minutesCharged d = max 1 ⌈d / 60⌉ := by
  unfold minutesCharged pyTrunc
  have hpm := pymod_sixty d
  have hfl : (⌊d / 60⌋ : ℚ) ≤ d / 60 := Int.floor_le _
  by_cases hq0 : 0 ≤ d / 60
  · by_cases hlt : (⌊d / 60⌋ : ℚ) < d / 60
    · have hpos : 0 < pymod d 60 := by rw [hpm]; linarith
      have hceil : ⌈d / 60⌉ = ⌊d / 60⌋ + 1 := by
        refine le_antisymm (Int.ceil_le_floor_add_one _) ?_
        have h1 : ⌊d / 60⌋ < ⌈d / 60⌉ := Int.lt_ceil.mpr hlt
        omega
      rw [if_pos hq0, if_pos hpos, hceil]
    · have heq : d / 60 = (⌊d / 60⌋ : ℚ) := le_antisymm (not_lt.mp hlt) hfl
      have hz : pymod d 60 = 0 := by rw [hpm]; linarith
      have hceil : ⌈d / 60⌉ = ⌊d / 60⌋ :=
        Int.ceil_eq_iff.mpr ⟨by linarith, le_of_eq heq⟩
      rw [if_pos hq0, if_neg (by rw [hz]; exact lt_irrefl 0), hceil]
      omega
  · have hneg : d / 60 < 0 := not_le.mp hq0
    have hcle : ⌈d / 60⌉ ≤ 0 := Int.ceil_le.mpr (by push_cast; linarith)
    rw [if_neg hq0]
    by_cases hpos : 0 < pymod d 60
    · rw [if_pos hpos]
      rw [max_eq_left (by omega), max_eq_left (by omega)]
    · rw [if_neg hpos]
      rw [max_eq_left (by omega), max_eq_left (by omega)]


/-- C1: the minutes charged by `end_session` at elapsed duration `d` seconds
equal the ceiling of `d / 60` with a floor of 1 minute; in particular
10 s charges 1, 60 s charges 1, 61 s charges 2, 125 s charges 3, and the
result is 1 even for zero or negative elapsed time (clock skew). -/
theorem claim_C1_end_minutes_ceiling :
    (∀ d : ℚ, minutesCharged d = max 1 ⌈d / 60⌉) ∧
    minutesCharged 10 = 1 ∧ minutesCharged 60 = 1 ∧
    minutesCharged 61 = 2 ∧ minutesCharged 125 = 3 ∧
    minutesCharged 0 = 1 ∧ minutesCharged (-125) = 1 :=
  ⟨minutesCharged_eq_ceil,
   by norm_num [minutesCharged, pyTrunc, pymod],
   by norm_num [minutesCharged, pyTrunc, pymod],
   by norm_num [minutesCharged, pyTrunc, pymod],
   by norm_num [minutesCharged, pyTrunc, pymod],
   by norm_num [minutesCharged, pyTrunc, pymod],
   by norm_num [minutesCharged, pyTrunc, pymod, Int.ceil_le]⟩


/-! ### Lemmas about the row-store helpers -/

theorem lookupSub_updateSubs_self (subs : List (ℕ × Subscription)) (uid : ℕ)
    (f : Subscription → Subscription) :
    lookupSub (updateSubs subs uid f) uid = (lookupSub subs uid).map f := by
  induction subs with
  | nil => rfl
  | cons p rest ih =>
    unfold updateSubs lookupSub at *
    by_cases hp : p.1 = uid
    · simp [List.find?_cons, hp]
    · simp only [List.map_cons, if_neg hp]
      rw [List.find?_cons_of_neg _ (by simp [hp]),
          List.find?_cons_of_neg _ (by simp [hp])]
      exact ih


theorem findSession_updateSessions (sessions : List (ℕ × LunaSession)) (sid uid : ℕ)
    (f : LunaSession → LunaSession) (hf : ∀ s, (f s).user_id = s.user_id) :
    findSession (updateSessions sessions sid f) sid uid =
      (findSession sessions sid uid).map f := by
  induction sessions with
  | nil => rfl
  | cons p rest ih =>
    unfold updateSessions findSession at *
    by_cases hp : p.1 = sid
    · simp only [List.map_cons, if_pos hp]
      by_cases hu : p.2.user_id = uid
      · rw [List.find?_cons_of_pos _ (by simp [hp, hf p.2, hu]),
            List.find?_cons_of_pos _ (by simp [hp, hu])]
        rfl
      · rw [List.find?_cons_of_neg _ (by simp [hf p.2, hu]),
            List.find?_cons_of_neg _ (by simp [hu])]
        exact ih
    · simp only [List.map_cons, if_neg hp]
      rw [List.find?_cons_of_neg _ (by simp [hp]),
          List.find?_cons_of_neg _ (by simp [hp])]
      exact ih


theorem findActiveSession_update_not_active (sessions : List (ℕ × LunaSession))
    (sid uid : ℕ) (f : LunaSession → LunaSession)
    (hf : ∀ s, (f s).status ≠ SessionStatus.active) :
    findActiveSession (updateSessions sessions sid f) sid uid = none := by
  induction sessions with
  | nil => rfl
  | cons p rest ih =>
    unfold updateSessions findActiveSession at *
    by_cases hp : p.1 = sid
    · simp only [List.map_cons, if_pos hp]
      rw [List.find?_cons_of_neg _ (by simp [hf])]
      exact ih
    · simp only [List.map_cons, if_neg hp]
      rw [List.find?_cons_of_neg _ (by simp [hp])]
      exact ih


theorem mem_updateSessions_at_key (sessions : List (ℕ × LunaSession)) (sid : ℕ)
    (f : LunaSession → LunaSession) :
    ∀ p ∈ updateSessions sessions sid f, p.1 = sid → ∃ s, p.2 = f s := by
  unfold updateSessions
  intro p hp hps
  rcases List.mem_map.mp hp with ⟨q, hq, hmap⟩
  by_cases h : q.1 = sid
  · rw [if_pos h] at hmap
    exact ⟨q.2, by rw [← hmap]⟩
  · rw [if_neg h] at hmap
    rw [← hmap] at hps
    exact absurd hps h


/-- Shared 404 branch of `send_message`: no matching active session. -/
theorem send_message_not_found (st : LunaSt) (uid sid : ℕ) (msg rt : String)
    (tk : ℕ) (vr : Option String)
    (h : findActiveSession st.sessions sid uid = none) :
    send_message st uid sid msg rt tk vr =
      (.error ⟨404, "Sessione non trovata o già terminata"⟩, st) := by
  unfold send_message
  rw [h]


/-- Shared 402 branch of `send_message`: active session but exhausted balance. -/
theorem send_message_paused (st : LunaSt) (uid sid : ℕ) (msg rt : String)
    (tk : ℕ) (vr : Option String) (s : LunaSession)
    (hs : findActiveSession st.sessions sid uid = some s)
    (hb : lookupSub st.subscriptions uid = none ∨
      ∃ sub, lookupSub st.subscriptions uid = some sub ∧ sub.luna_minutes_balance < 1) :
    send_message st uid sid msg rt tk vr =
      (.error ⟨402, "Minuti Luna esauriti. Acquista un pacchetto per continuare."⟩,
       { st with sessions := updateSessions st.sessions sid pauseExpired }) := by
  unfold send_message
  rw [hs]
  rcases hb with h | ⟨sub, hsub, hlt⟩
  · rw [h]
    rfl
  · rw [hsub]
    simp [hlt]


/-- Shared happy path of `send_message`. -/
theorem send_message_ok (st : LunaSt) (uid sid : ℕ) (msg rt : String)
    (tk : ℕ) (vr : Option String) (s : LunaSession) (sub : Subscription)
    (hs : findActiveSession st.sessions sid uid = some s)
    (hsub : lookupSub st.subscriptions uid = some sub)
    (hb : ¬ sub.luna_minutes_balance < 1) :
    send_message st uid sid msg rt tk vr =
      (.ok ⟨rt, (if s.voice_used then vr else none), sub.luna_minutes_balance⟩,
       { st with
           modelCalls := st.modelCalls + 1,
           messages := (st.messages ++ [LunaMessage.mk sid uid "user" msg none none]) ++
             [LunaMessage.mk sid uid "assistant" rt
               (if s.voice_used then vr else none) (some tk)],
           sessions := updateSessions st.sessions sid (fun s0 =>
             { s0 with messages_count := s.messages_count + 1 }) }) := by
  unfold send_message
  rw [hs, hsub]
  simp [hb, hsub]


/-- Shared found branch of `end_session`: the row exists (any status). -/
theorem end_session_found (st : LunaSt) (uid sid : ℕ) (now : ℚ) (s : LunaSession)
    (hs : findSession st.sessions sid uid = some s) :
    end_session st uid sid now =
      (.ok ⟨true, minutesCharged (now - s.created_at), minutesCharged (now - s.created_at),
            (match lookupSub (deduct_luna_minutes st.subscriptions uid
                (minutesCharged (now - s.created_at))) uid with
             | some sub => sub.luna_minutes_balance
             | none => 0)⟩,
       { st with
           subscriptions := deduct_luna_minutes st.subscriptions uid
             (minutesCharged (now - s.created_at)),
           sessions := updateSessions st.sessions sid
             (closeSession now (minutesCharged (now - s.created_at))) }) := by
  unfold end_session
  rw [hs]


/-- C3: a turn on a session id that does not match an active row owned by the
caller fails with 404 and leaves the whole state unchanged. -/
theorem claim_C3_turn_not_active_404 (st : LunaSt) (uid sid : ℕ) (msg rt : String)
    (tk : ℕ) (vr : Option String)
    (h : findActiveSession st.sessions sid uid = none) :
    send_message st uid sid msg rt tk vr =
      (.error ⟨404, "Sessione non trovata o già terminata"⟩, st) :=
  send_message_not_found st uid sid msg rt tk vr h


/-- C2: a turn on an active session whose owning subscription is missing or has
balance below 1 pauses the session with reason `time_expired`, fails with 402,
persists no message, increments no counter, invokes no model, and a subsequent
turn on the same session fails with 404. -/
theorem claim_C2_turn_exhausted_pauses (st : LunaSt) (uid sid : ℕ)
    (msg rt : String) (tk : ℕ) (vr : Option String) (s : LunaSession)
    (hs : findActiveSession st.sessions sid uid = some s)
    (hb : lookupSub st.subscriptions uid = none ∨
      ∃ sub, lookupSub st.subscriptions uid = some sub ∧ sub.luna_minutes_balance < 1) :
    (send_message st uid sid msg rt tk vr).1 =
      .error ⟨402, "Minuti Luna esauriti. Acquista un pacchetto per continuare."⟩ ∧
    (∀ p ∈ (send_message st uid sid msg rt tk vr).2.sessions, p.1 = sid →
      p.2.status = SessionStatus.paused ∧
      p.2.ended_reason = some EndReason.time_expired) ∧
    (send_message st uid sid msg rt tk vr).2.messages = st.messages ∧
    (send_message st uid sid msg rt tk vr).2.modelCalls = st.modelCalls ∧
    (send_message st uid sid msg rt tk vr).2.subscriptions = st.subscriptions ∧
    (∀ msg2 rt2 tk2 vr2,
      send_message (send_message st uid sid msg rt tk vr).2 uid sid msg2 rt2 tk2 vr2 =
        (.error ⟨404, "Sessione non trovata o già terminata"⟩,
         (send_message st uid sid msg rt tk vr).2)) := by
  rw [send_message_paused st uid sid msg rt tk vr s hs hb]
  refine ⟨rfl, ?_, rfl, rfl, rfl, ?_⟩
  · intro p hp hps
    rcases mem_updateSessions_at_key st.sessions sid pauseExpired p hp hps with ⟨s0, hs0⟩
    rw [hs0]
    exact ⟨rfl, rfl⟩
  · intro msg2 rt2 tk2 vr2
    exact send_message_not_found _ uid sid msg2 rt2 tk2 vr2
      (findActiveSession_update_not_active st.sessions sid uid pauseExpired
        (fun s0 => by simp [pauseExpired]))


/-- C9: a successful turn leaves the subscriptions table unchanged, and the
returned `minutes_remaining` equals the balance before the turn (a turn never
debits minutes). -/
theorem claim_C9_turn_preserves_balance (st : LunaSt) (uid sid : ℕ)
    (msg rt : String) (tk : ℕ) (vr : Option String) (out : SendOut)
    (h : (send_message st uid sid msg rt tk vr).1 = Except.ok out) :
    (send_message st uid sid msg rt tk vr).2.subscriptions = st.subscriptions ∧
    out.minutes_remaining =
      (match lookupSub st.subscriptions uid with
       | some sub => sub.luna_minutes_balance
       | none => 0) := by
  cases hfs : findActiveSession st.sessions sid uid with
  | none =>
    rw [send_message_not_found st uid sid msg rt tk vr hfs] at h
    simp at h
  | some s =>
    cases hsub : lookupSub st.subscriptions uid with
    | none =>
      rw [send_message_paused st uid sid msg rt tk vr s hfs (Or.inl hsub)] at h
      simp at h
    | some sub =>
      by_cases hlt : sub.luna_minutes_balance < 1
      · rw [send_message_paused st uid sid msg rt tk vr s hfs
          (Or.inr ⟨sub, hsub, hlt⟩)] at h
        simp at h
      · rw [send_message_ok st uid sid msg rt tk vr s sub hfs hsub hlt] at h ⊢
        simp only [Except.ok.injEq] at h
        rw [← h]
        exact ⟨rfl, rfl⟩


/-- C8: `start_session` fails with 403 when the caller has no subscription row,
fails with 402 when the balance is below 1, and otherwise appends a fresh
active session embedding the grounding-context snapshot and returns
`{session_id, minutes_available, started_at}` with the caller's balance. -/
theorem claim_C8_start_session_spec (st : LunaSt) (uid : ℕ) (partner : Option ℕ)
    (voice : Bool) (ctx : String) (now : ℚ) :
    (lookupSub st.subscriptions uid = none →
      start_session st uid partner voice ctx now =
        (.error ⟨403, "Nessun abbonamento trovato"⟩, st)) ∧
    (∀ sub, lookupSub st.subscriptions uid = some sub →
      sub.luna_minutes_balance < 1 →
      start_session st uid partner voice ctx now =
        (.error ⟨402, "Minuti Luna esauriti. Acquista un pacchetto per continuare."⟩, st)) ∧
    (∀ sub, lookupSub st.subscriptions uid = some sub →
      1 ≤ sub.luna_minutes_balance →
      start_session st uid partner voice ctx now =
        (.ok ⟨st.nextId, sub.luna_minutes_balance, now⟩,
         { st with
             sessions := st.sessions ++
               [(st.nextId,
                 { user_id := uid, partner_id := partner,
                   status := SessionStatus.active, voice_used := voice,
                   context_snapshot := ctx, messages_count := 0,
                   created_at := now, ended_at := none, ended_reason := none,
                   duration_minutes := none, minutes_charged := none })],
             nextId := st.nextId + 1 })) := by
  refine ⟨fun h => ?_, fun sub hsub hlt => ?_, fun sub hsub hge => ?_⟩
  · unfold start_session
    rw [h]
  · unfold start_session
    rw [hsub]
    simp [hlt]
  · unfold start_session
    rw [hsub]
    simp [not_lt.mpr hge]


/-- C10: `end_session` does not require the session to be active — any owned
row (active, paused or already ended) is billed and closed again, so ending
twice debits the balance twice. -/
theorem claim_C10_end_not_idempotent (st : LunaSt) (uid sid : ℕ) (now1 now2 : ℚ)
    (s : LunaSession) (sub : Subscription)
    (hs : findSession st.sessions sid uid = some s)
    (hsub : lookupSub st.subscriptions uid = some sub) :
    (end_session st uid sid now1).1 =
      .ok ⟨true, minutesCharged (now1 - s.created_at),
           minutesCharged (now1 - s.created_at),
           sub.luna_minutes_balance - minutesCharged (now1 - s.created_at)⟩ ∧
    lookupSub (end_session st uid sid now1).2.subscriptions uid =
      some (Subscription.mk
        (sub.luna_minutes_balance - minutesCharged (now1 - s.created_at))) ∧
    (∀ p ∈ (end_session st uid sid now1).2.sessions, p.1 = sid →
      p.2.status = SessionStatus.ended ∧
      p.2.ended_reason = some EndReason.user_ended ∧
      p.2.ended_at = some now1 ∧
      p.2.duration_minutes = some (minutesCharged (now1 - s.created_at)) ∧
      p.2.minutes_charged = some (minutesCharged (now1 - s.created_at))) ∧
    findSession (end_session st uid sid now1).2.sessions sid uid =
      some (closeSession now1 (minutesCharged (now1 - s.created_at)) s) ∧
    (end_session (end_session st uid sid now1).2 uid sid now2).1 =
      .ok ⟨true, minutesCharged (now2 - s.created_at),
           minutesCharged (now2 - s.created_at),
           sub.luna_minutes_balance - minutesCharged (now1 - s.created_at)
             - minutesCharged (now2 - s.created_at)⟩ ∧
    lookupSub
        (end_session (end_session st uid sid now1).2 uid sid now2).2.subscriptions uid =
      some (Subscription.mk
        (sub.luna_minutes_balance - minutesCharged (now1 - s.created_at)
          - minutesCharged (now2 - s.created_at))) := by
  have hL1 : lookupSub (deduct_luna_minutes st.subscriptions uid
      (minutesCharged (now1 - s.created_at))) uid =
      some (Subscription.mk
        (sub.luna_minutes_balance - minutesCharged (now1 - s.created_at))) := by
    unfold deduct_luna_minutes
    rw [lookupSub_updateSubs_self, hsub]
    rfl
  rw [end_session_found st uid sid now1 s hs]
  have hs2 : findSession (updateSessions st.sessions sid
      (closeSession now1 (minutesCharged (now1 - s.created_at)))) sid uid =
      some (closeSession now1 (minutesCharged (now1 - s.created_at)) s) := by
    rw [findSession_updateSessions st.sessions sid uid
      (closeSession now1 (minutesCharged (now1 - s.created_at)))
      (fun s0 => rfl), hs]
    rfl
  have hL2 : lookupSub (deduct_luna_minutes (deduct_luna_minutes st.subscriptions uid
      (minutesCharged (now1 - s.created_at))) uid
      (minutesCharged (now2 - s.created_at))) uid =
      some (Subscription.mk
        (sub.luna_minutes_balance - minutesCharged (now1 - s.created_at)
          - minutesCharged (now2 - s.created_at))) := by
    unfold deduct_luna_minutes
    rw [lookupSub_updateSubs_self, lookupSub_updateSubs_self, hsub]
    rfl
  have key2 := end_session_found
      { st with
          subscriptions := deduct_luna_minutes st.subscriptions uid
            (minutesCharged (now1 - s.created_at)),
          sessions := updateSessions st.sessions sid
            (closeSession now1 (minutesCharged (now1 - s.created_at))) }
      uid sid now2 (closeSession now1 (minutesCharged (now1 - s.created_at)) s) hs2
  refine ⟨by rw [hL1], hL1, ?_, hs2, ?_, ?_⟩
  · intro p hp hps
    rcases mem_updateSessions_at_key st.sessions sid
      (closeSession now1 (minutesCharged (now1 - s.created_at))) p hp hps with ⟨s0, hs0⟩
    rw [hs0]
    exact ⟨rfl, rfl, rfl, rfl, rfl⟩
  · rw [key2]
    dsimp only [closeSession]
    rw [hL2]
  · rw [key2]
    dsimp only [closeSession]
    exact hL2


theorem claim_C2_witness :
    findActiveSession lunaStLow.sessions 7 1 = some lunaSessionA ∧
    (∃ sub, lookupSub lunaStLow.subscriptions 1 = some sub ∧
      sub.luna_minutes_balance < 1) ∧
    (send_message lunaStLow 1 7 "ciao" "reply" 3 none).1 =
      .error ⟨402, "Minuti Luna esauriti. Acquista un pacchetto per continuare."⟩ :=
  ⟨rfl, ⟨⟨0⟩, rfl, by decide⟩,
   (claim_C2_turn_exhausted_pauses lunaStLow 1 7 "ciao" "reply" 3 none lunaSessionA rfl
     (Or.inr ⟨⟨0⟩, rfl, by decide⟩)).1⟩


theorem claim_C3_witness :
    findActiveSession lunaStEnded.sessions 7 1 = none ∧
    send_message lunaStEnded 1 7 "ciao" "reply" 3 none =
      (.error ⟨404, "Sessione non trovata o già terminata"⟩, lunaStEnded) :=
  ⟨rfl, claim_C3_turn_not_active_404 lunaStEnded 1 7 "ciao" "reply" 3 none rfl⟩


theorem claim_C8_witness :
    lookupSub lunaStNoSub.subscriptions 1 = none ∧
    start_session lunaStNoSub 1 none false "ctx" 0 =
      (.error ⟨403, "Nessun abbonamento trovato"⟩, lunaStNoSub) ∧
    lookupSub lunaStLow.subscriptions 1 = some ⟨0⟩ ∧
    start_session lunaStLow 1 none false "ctx" 0 =
      (.error ⟨402, "Minuti Luna esauriti. Acquista un pacchetto per continuare."⟩,
       lunaStLow) ∧
    lookupSub lunaStOk.subscriptions 1 = some ⟨5⟩ ∧
    (start_session lunaStOk 1 none false "ctx" 0).1 = .ok ⟨8, 5, 0⟩ :=
  ⟨rfl,
   (claim_C8_start_session_spec lunaStNoSub 1 none false "ctx" 0).1 rfl,
   rfl,
   (claim_C8_start_session_spec lunaStLow 1 none false "ctx" 0).2.1 ⟨0⟩ rfl (by decide),
   rfl,
   by rw [(claim_C8_start_session_spec lunaStOk 1 none false "ctx" 0).2.2 ⟨5⟩ rfl
     (by decide)]; rfl⟩


theorem claim_C9_witness :
    (send_message lunaStOk 1 7 "ciao" "reply" 3 none).1 =
      Except.ok ⟨"reply", none, 5⟩ ∧
    (send_message lunaStOk 1 7 "ciao" "reply" 3 none).2.subscriptions =
      lunaStOk.subscriptions :=
  ⟨rfl,
   (claim_C9_turn_preserves_balance lunaStOk 1 7 "ciao" "reply" 3 none
     ⟨"reply", none, 5⟩ rfl).1⟩


theorem claim_C10_witness :
    findSession lunaStEnded.sessions 7 1 = some lunaSessionEnded ∧
    lookupSub lunaStEnded.subscriptions 1 = some ⟨5⟩ ∧
    minutesCharged (90 - lunaSessionEnded.created_at) = 2 ∧
    (end_session lunaStEnded 1 7 90).1 =
      .ok ⟨true, minutesCharged (90 - lunaSessionEnded.created_at),
           minutesCharged (90 - lunaSessionEnded.created_at),
           (5 : ℤ) - minutesCharged (90 - lunaSessionEnded.created_at)⟩ ∧
    (end_session (end_session lunaStEnded 1 7 90).2 1 7 90).1 =
      .ok ⟨true, minutesCharged (90 - lunaSessionEnded.created_at),
           minutesCharged (90 - lunaSessionEnded.created_at),
           (5 : ℤ) - minutesCharged (90 - lunaSessionEnded.created_at)
             - minutesCharged (90 - lunaSessionEnded.created_at)⟩ :=
  ⟨rfl, rfl,
   by norm_num [minutesCharged, pyTrunc, pymod, lunaSessionEnded, lunaSessionA],
   (claim_C10_end_not_idempotent lunaStEnded 1 7 90 90 lunaSessionEnded ⟨5⟩ rfl rfl).1,
   (claim_C10_end_not_idempotent lunaStEnded 1 7 90 90 lunaSessionEnded ⟨5⟩
     rfl rfl).2.2.2.2.1⟩


theorem hasDH_append_single (dh : List DailyHoroscope) (r : DailyHoroscope)
    (uid : ℕ) (today : String) :
    hasDH (dh ++ [r]) uid today =
      (hasDH dh uid today || decide (r.user_id = uid ∧ r.horoscope_date = today)) := by
  simp [hasDH, List.any_append]


theorem countDH_append_single (dh : List DailyHoroscope) (r : DailyHoroscope)
    (uid : ℕ) (today : String) :
    countDH (dh ++ [r]) uid today =
      countDH dh uid today +
        (if r.user_id = uid ∧ r.horoscope_date = today then 1 else 0) := by
  simp only [countDH, List.filter_append, List.length_append, List.filter_cons,
    List.filter_nil]
  by_cases h : r.user_id = uid ∧ r.horoscope_date = today
  · simp [h]
  · simp [h]


theorem hasDH_true_iff (dh : List DailyHoroscope) (uid : ℕ) (today : String) :
    hasDH dh uid today = true ↔ 0 < countDH dh uid today := by
  unfold hasDH countDH
  rw [← List.countP_eq_length_filter, List.countP_pos_iff, List.any_eq_true]


/-- Core counting invariant of the per-user loop: with pairwise distinct user
ids, `processed` grows by the number of users, `failed` (and the error-list
length) by the number of failing users, and `success` by the rest. -/
theorem processUsers_spec (gen : ℕ → Except String HoroscopeData)
    (today planetary now : String) :
    ∀ (us : List ProfileRow) (acc : RunAcc),
      (us.map (fun u => u.id)).Nodup →
      (processUsers gen today planetary now us acc).processed =
        acc.processed + us.length ∧
      (processUsers gen today planetary now us acc).failed =
        acc.failed + countFail gen today acc.dh us ∧
      (processUsers gen today planetary now us acc).success =
        acc.success + (us.length - countFail gen today acc.dh us) ∧
      (processUsers gen today planetary now us acc).errors.length =
        acc.errors.length + countFail gen today acc.dh us ∧
      countFail gen today acc.dh us ≤ us.length := by
  intro us
  induction us with
  | nil =>
    intro acc _
    simp [processUsers, countFail]
  | cons u rest ih =>
    intro acc hnd
    simp only [List.map_cons, List.nodup_cons] at hnd
    obtain ⟨hdisj, hnd'⟩ := hnd
    by_cases hdh : hasDH acc.dh u.id today
    · have hcf : countFail gen today acc.dh (u :: rest) =
          countFail gen today acc.dh rest := by
        simp [countFail, List.filter_cons, hdh]
      obtain ⟨h1, h2, h3, h4, h5⟩ :=
        ih { acc with processed := acc.processed + 1, success := acc.success + 1 } hnd'
      dsimp only at h1 h2 h3 h4 h5
      simp only [processUsers, if_pos hdh, hcf, List.length_cons]
      refine ⟨by rw [h1]; omega, by rw [h2], by rw [h3]; omega, by rw [h4], by omega⟩
    · cases hgen : gen u.id with
      | ok h =>
        have hcf0 : countFail gen today acc.dh (u :: rest) =
            countFail gen today acc.dh rest := by
          simp [countFail, List.filter_cons, genFails, hgen]
        have hcfdh : countFail gen today
            (acc.dh ++ [mkDHRow u.id today h planetary now]) rest =
            countFail gen today acc.dh rest := by
          unfold countFail
          apply congrArg List.length
          apply List.filter_congr
          intro v hv
          have hne : u.id ≠ v.id := by
            intro he
            exact hdisj (he ▸ List.mem_map.mpr ⟨v, hv, rfl⟩)
          rw [hasDH_append_single]
          simp [mkDHRow, hne]
        obtain ⟨h1, h2, h3, h4, h5⟩ :=
          ih { acc with dh := acc.dh ++ [mkDHRow u.id today h planetary now],
                        processed := acc.processed + 1,
                        success := acc.success + 1 } hnd'
        dsimp only at h1 h2 h3 h4 h5
        rw [hcfdh] at h2 h3 h4 h5
        simp only [processUsers, if_neg hdh, hgen, hcf0, List.length_cons]
        refine ⟨by rw [h1]; omega, by rw [h2], by rw [h3]; omega, by rw [h4], by omega⟩
      | error e =>
        have hcf : countFail gen today acc.dh (u :: rest) =
            countFail gen today acc.dh rest + 1 := by
          simp [countFail, List.filter_cons, hdh, genFails, hgen]
        obtain ⟨h1, h2, h3, h4, h5⟩ :=
          ih { acc with processed := acc.processed + 1, failed := acc.failed + 1,
                        errors := acc.errors ++ [JobError.mk u.id e] } hnd'
        dsimp only at h1 h2 h3 h4 h5
        simp only [List.length_append, List.length_cons, List.length_nil] at h4
        simp only [processUsers, if_neg hdh, hgen, hcf, List.length_cons]
        refine ⟨by rw [h1]; omega, by rw [h2]; omega, by rw [h3]; omega,
          by rw [h4]; omega, by omega⟩


theorem lookupJob_updateJobs_self (jobs : List (ℕ × JobRun)) (k : ℕ)
    (f : JobRun → JobRun) :
    lookupJob (updateJobs jobs k f) k = (lookupJob jobs k).map f := by
  induction jobs with
  | nil => rfl
  | cons p rest ih =>
    unfold updateJobs lookupJob at *
    by_cases hp : p.1 = k
    · simp [List.find?_cons, hp]
    · simp only [List.map_cons, if_neg hp]
      rw [List.find?_cons_of_neg _ (by simp [hp]),
          List.find?_cons_of_neg _ (by simp [hp])]
      exact ih


theorem lookupJob_append_self (jobs : List (ℕ × JobRun)) (k : ℕ) (j0 : JobRun) :
    ∃ j1, lookupJob (jobs ++ [(k, j0)]) k = some j1 := by
  induction jobs with
  | nil => exact ⟨j0, by unfold lookupJob; simp⟩
  | cons p rest ih =>
    by_cases hp : p.1 = k
    · refine ⟨p.2, ?_⟩
      unfold lookupJob
      rw [List.cons_append, List.find?_cons_of_pos _ (by simp [hp])]
      rfl
    · obtain ⟨j1, hj⟩ := ih
      refine ⟨j1, ?_⟩
      unfold lookupJob at *
      rw [List.cons_append, List.find?_cons_of_neg _ (by simp [hp])]
      exact hj


/-- C5: over `N` eligible users of which `F` fail, each failure is caught
without aborting the loop and the job-run row ends `completed` with
`users_processed = N`, `users_success = N - F`, `users_failed = F`, and an
error log of `min F 50` entries. -/
theorem claim_C5_run_statistics (st : SchedSt) (today planetary now : String)
    (gen : ℕ → Except String HoroscopeData)
    (hnd : ((eligibleUsers st.profiles).map (fun u => u.id)).Nodup) :
    (generate_daily st today planetary now gen).1.processed =
      (eligibleUsers st.profiles).length ∧
    (generate_daily st today planetary now gen).1.failed =
      countFail gen today st.daily_horoscopes (eligibleUsers st.profiles) ∧
    (generate_daily st today planetary now gen).1.success =
      (eligibleUsers st.profiles).length -
        countFail gen today st.daily_horoscopes (eligibleUsers st.profiles) ∧
    (lookupJob (generate_daily st today planetary now gen).2.scheduler_jobs
        st.nextJobId).map (fun j =>
          (j.status, j.users_processed, j.users_success, j.users_failed,
           j.error_log.length)) =
      some ("completed", (eligibleUsers st.profiles).length,
        (eligibleUsers st.profiles).length -
          countFail gen today st.daily_horoscopes (eligibleUsers st.profiles),
        countFail gen today st.daily_horoscopes (eligibleUsers st.profiles),
        min (countFail gen today st.daily_horoscopes (eligibleUsers st.profiles)) 50) := by
  obtain ⟨h1, h2, h3, h4, h5⟩ := processUsers_spec gen today planetary now
    (eligibleUsers st.profiles) ⟨st.daily_horoscopes, 0, 0, 0, []⟩ hnd
  dsimp only at h1 h2 h3 h4 h5
  obtain ⟨j1, hj1⟩ := lookupJob_append_self st.scheduler_jobs st.nextJobId
    ⟨"daily_generation", today, "running", none, 0, 0, 0, []⟩
  dsimp only [generate_daily]
  rw [lookupJob_updateJobs_self, hj1]
  refine ⟨by rw [h1]; omega, by rw [h2]; omega, by rw [h3]; omega, ?_⟩
  simp only [Option.map_some', Option.some.injEq, Prod.mk.injEq]
  refine ⟨trivial, by rw [h1]; omega, by rw [h3]; omega, by rw [h2]; omega, ?_⟩
  dsimp only
  rw [List.length_take, h4]
  simp [Nat.min_comm]


/-- When every user already has a row, the loop only counts: the table, the
failure count and the error list are untouched. -/
theorem processUsers_skip_all (gen : ℕ → Except String HoroscopeData)
    (today planetary now : String) :
    ∀ (us : List ProfileRow) (acc : RunAcc),
      (∀ u ∈ us, hasDH acc.dh u.id today = true) →
      processUsers gen today planetary now us acc =
        { acc with processed := acc.processed + us.length,
                   success := acc.success + us.length } := by
  intro us
  induction us with
  | nil =>
    intro acc _
    simp [processUsers]
  | cons u rest ih =>
    intro acc hall
    simp only [processUsers, if_pos (hall u (List.mem_cons_self u rest))]
    rw [ih { acc with processed := acc.processed + 1, success := acc.success + 1 }
      (fun v hv => hall v (List.mem_cons_of_mem u hv))]
    dsimp only
    simp only [RunAcc.mk.injEq, List.length_cons]
    refine ⟨trivial, by omega, by omega, trivial, trivial⟩


/-- The loop never inserts a row for a user id outside the processed list. -/
theorem processUsers_countDH_not_mem (gen : ℕ → Except String HoroscopeData)
    (today planetary now : String) :
    ∀ (us : List ProfileRow) (acc : RunAcc) (uid : ℕ),
      uid ∉ us.map (fun u => u.id) →
      countDH (processUsers gen today planetary now us acc).dh uid today =
        countDH acc.dh uid today := by
  intro us
  induction us with
  | nil => intro acc uid _; rfl
  | cons u rest ih =>
    intro acc uid hmem
    simp only [List.map_cons, List.mem_cons, not_or] at hmem
    obtain ⟨hne, hmem'⟩ := hmem
    by_cases hdh : hasDH acc.dh u.id today
    · simp only [processUsers, if_pos hdh]
      exact ih _ uid hmem'
    · cases hgen : gen u.id with
      | ok h =>
        simp only [processUsers, if_neg hdh, hgen]
        rw [ih _ uid hmem']
        dsimp only
        rw [countDH_append_single]
        simp [mkDHRow, Ne.symm hne]
      | error e =>
        simp only [processUsers, if_neg hdh, hgen]
        exact ih _ uid hmem'


/-- When no user of the (id-distinct) list has a row yet and every model call
succeeds, the loop inserts exactly one row per user. -/
theorem processUsers_count_one (gen : ℕ → Except String HoroscopeData)
    (today planetary now : String) :
    ∀ (us : List ProfileRow) (acc : RunAcc),
      (us.map (fun u => u.id)).Nodup →
      (∀ u ∈ us, hasDH acc.dh u.id today = false) →
      (∀ u ∈ us, genFails gen u.id = false) →
      ∀ u ∈ us,
        countDH (processUsers gen today planetary now us acc).dh u.id today =
          countDH acc.dh u.id today + 1 := by
  intro us
  induction us with
  | nil => intro acc _ _ _ u hu; cases hu
  | cons w rest ih =>
    intro acc hnd hnew hok u hu
    simp only [List.map_cons, List.nodup_cons] at hnd
    obtain ⟨hw, hnd'⟩ := hnd
    have hdh : hasDH acc.dh w.id today = false := hnew w (List.mem_cons_self _ _)
    have hgf : genFails gen w.id = false := hok w (List.mem_cons_self _ _)
    obtain ⟨h, hgen⟩ : ∃ h, gen w.id = .ok h := by
      cases hg : gen w.id with
      | error e =>
        rw [genFails, hg] at hgf
        simp at hgf
      | ok hh => exact ⟨hh, rfl⟩
    simp only [processUsers, hdh, Bool.false_eq_true, if_false, hgen]
    have hrow : ∀ v : ℕ, v ≠ w.id →
        countDH (acc.dh ++ [mkDHRow w.id today h planetary now]) v today =
          countDH acc.dh v today := by
      intro v hv
      rw [countDH_append_single]
      simp [mkDHRow, Ne.symm hv]
    rcases List.mem_cons.mp hu with rfl | hu'
    · rw [processUsers_countDH_not_mem gen today planetary now rest _ u.id hw]
      dsimp only
      rw [countDH_append_single]
      simp [mkDHRow]
    · have hvne : u.id ≠ w.id := by
        intro he
        exact hw (he ▸ List.mem_map.mpr ⟨u, hu', rfl⟩)
      have := ih { acc with dh := acc.dh ++ [mkDHRow w.id today h planetary now],
                            processed := acc.processed + 1,
                            success := acc.success + 1 } hnd'
        (by
          intro v hv
          have hvne' : v.id ≠ w.id := by
            intro he
            exact hw (he ▸ List.mem_map.mpr ⟨v, hv, rfl⟩)
          dsimp only
          rw [hasDH_append_single]
          simp [mkDHRow, Ne.symm hvne', hnew v (List.mem_cons_of_mem w hv)])
        (fun v hv => hok v (List.mem_cons_of_mem w hv)) u hu'
      rw [this]
      dsimp only
      rw [hrow u.id hvne]


/-- C4: running `generate-daily` twice on the same date yields exactly one
horoscope row per eligible user; the second run inserts nothing and counts
every user as processed and success. -/
theorem claim_C4_generate_daily_idempotent (st : SchedSt)
    (today planetary1 now1 planetary2 now2 : String)
    (g1 g2 : ℕ → Except String HoroscopeData)
    (hnd : ((eligibleUsers st.profiles).map (fun u => u.id)).Nodup)
    (hnew : ∀ u ∈ eligibleUsers st.profiles,
      hasDH st.daily_horoscopes u.id today = false)
    (hok : ∀ u ∈ eligibleUsers st.profiles, genFails g1 u.id = false) :
    (generate_daily (generate_daily st today planetary1 now1 g1).2
        today planetary2 now2 g2).2.daily_horoscopes =
      (generate_daily st today planetary1 now1 g1).2.daily_horoscopes ∧
    (∀ u ∈ eligibleUsers st.profiles,
      countDH (generate_daily (generate_daily st today planetary1 now1 g1).2
          today planetary2 now2 g2).2.daily_horoscopes u.id today = 1) ∧
    (generate_daily (generate_daily st today planetary1 now1 g1).2
        today planetary2 now2 g2).1.processed =
      (eligibleUsers st.profiles).length ∧
    (generate_daily (generate_daily st today planetary1 now1 g1).2
        today planetary2 now2 g2).1.success =
      (eligibleUsers st.profiles).length ∧
    (generate_daily (generate_daily st today planetary1 now1 g1).2
        today planetary2 now2 g2).1.failed = 0 := by
  have hcount1 : ∀ u ∈ eligibleUsers st.profiles,
      countDH (generate_daily st today planetary1 now1 g1).2.daily_horoscopes
        u.id today = 1 := by
    intro u hu
    have h0 : countDH st.daily_horoscopes u.id today = 0 := by
      by_contra hpos
      have hT : hasDH st.daily_horoscopes u.id today = true :=
        (hasDH_true_iff _ _ _).mpr (Nat.pos_of_ne_zero hpos)
      rw [hnew u hu] at hT
      exact Bool.false_ne_true hT
    have := processUsers_count_one g1 today planetary1 now1
      (eligibleUsers st.profiles) ⟨st.daily_horoscopes, 0, 0, 0, []⟩ hnd
      (by intro v hv; exact hnew v hv) hok u hu
    dsimp only at this
    show countDH (processUsers g1 today planetary1 now1
      (eligibleUsers st.profiles) ⟨st.daily_horoscopes, 0, 0, 0, []⟩).dh u.id today = 1
    rw [this, h0]
  have hall1 : ∀ u ∈ eligibleUsers st.profiles,
      hasDH (generate_daily st today planetary1 now1 g1).2.daily_horoscopes
        u.id today = true := by
    intro u hu
    rw [hasDH_true_iff, hcount1 u hu]
    omega
  have hskip := processUsers_skip_all g2 today planetary2 now2
    (eligibleUsers st.profiles)
    ⟨(generate_daily st today planetary1 now1 g1).2.daily_horoscopes, 0, 0, 0, []⟩
    (by intro u hu; dsimp only; exact hall1 u hu)
  have hsame : eligibleUsers (generate_daily st today planetary1 now1 g1).2.profiles =
      eligibleUsers st.profiles := rfl
  refine ⟨?_, ?_, ?_, ?_, ?_⟩
  · show (processUsers g2 today planetary2 now2
      (eligibleUsers (generate_daily st today planetary1 now1 g1).2.profiles)
      ⟨(generate_daily st today planetary1 now1 g1).2.daily_horoscopes, 0, 0, 0, []⟩).dh = _
    rw [hsame, hskip]
  · intro u hu
    show countDH (processUsers g2 today planetary2 now2
      (eligibleUsers (generate_daily st today planetary1 now1 g1).2.profiles)
      ⟨(generate_daily st today planetary1 now1 g1).2.daily_horoscopes, 0, 0, 0, []⟩).dh
      u.id today = 1
    rw [hsame, hskip]
    exact hcount1 u hu
  · show (processUsers g2 today planetary2 now2
      (eligibleUsers (generate_daily st today planetary1 now1 g1).2.profiles)
      ⟨(generate_daily st today planetary1 now1 g1).2.daily_horoscopes, 0, 0, 0, []⟩).processed = _
    rw [hsame, hskip]
    dsimp only
    omega
  · show (processUsers g2 today planetary2 now2
      (eligibleUsers (generate_daily st today planetary1 now1 g1).2.profiles)
      ⟨(generate_daily st today planetary1 now1 g1).2.daily_horoscopes, 0, 0, 0, []⟩).success = _
    rw [hsame, hskip]
    dsimp only
    omega
  · show (processUsers g2 today planetary2 now2
      (eligibleUsers (generate_daily st today planetary1 now1 g1).2.profiles)
      ⟨(generate_daily st today planetary1 now1 g1).2.daily_horoscopes, 0, 0, 0, []⟩).failed = _
    rw [hsame, hskip]


theorem claim_C4_witness :
    ((eligibleUsers schedSt0.profiles).map (fun u => u.id)).Nodup ∧
    (∀ u ∈ eligibleUsers schedSt0.profiles,
      hasDH schedSt0.daily_horoscopes u.id "2026-10-12" = false) ∧
    (∀ u ∈ eligibleUsers schedSt0.profiles, genFails genOk u.id = false) ∧
    (generate_daily (generate_daily schedSt0 "2026-10-12" "pl" "t0" genOk).2
        "2026-10-12" "pl2" "t1" genOk).2.daily_horoscopes =
      (generate_daily schedSt0 "2026-10-12" "pl" "t0" genOk).2.daily_horoscopes ∧
    (∀ u ∈ eligibleUsers schedSt0.profiles,
      countDH (generate_daily (generate_daily schedSt0 "2026-10-12" "pl" "t0" genOk).2
          "2026-10-12" "pl2" "t1" genOk).2.daily_horoscopes u.id "2026-10-12" = 1) :=
  ⟨by decide, by decide, by decide,
   (claim_C4_generate_daily_idempotent schedSt0 "2026-10-12" "pl" "t0" "pl2" "t1"
     genOk genOk (by decide) (by decide) (by decide)).1,
   (claim_C4_generate_daily_idempotent schedSt0 "2026-10-12" "pl" "t0" "pl2" "t1"
     genOk genOk (by decide) (by decide) (by decide)).2.1⟩


theorem claim_C5_witness :
    ((eligibleUsers schedSt0.profiles).map (fun u => u.id)).Nodup ∧
    (eligibleUsers schedSt0.profiles).length = 2 ∧
    countFail genOneFail "2026-10-12" schedSt0.daily_horoscopes
      (eligibleUsers schedSt0.profiles) = 1 ∧
    (lookupJob (generate_daily schedSt0 "2026-10-12" "pl" "t0" genOneFail).2.scheduler_jobs
        schedSt0.nextJobId).map (fun j =>
          (j.status, j.users_processed, j.users_success, j.users_failed,
           j.error_log.length)) =
      some ("completed", (eligibleUsers schedSt0.profiles).length,
        (eligibleUsers schedSt0.profiles).length -
          countFail genOneFail "2026-10-12" schedSt0.daily_horoscopes
            (eligibleUsers schedSt0.profiles),
        countFail genOneFail "2026-10-12" schedSt0.daily_horoscopes
          (eligibleUsers schedSt0.profiles),
        min (countFail genOneFail "2026-10-12" schedSt0.daily_horoscopes
          (eligibleUsers schedSt0.profiles)) 50) :=
  ⟨by decide, by decide, by decide,
   (claim_C5_run_statistics schedSt0 "2026-10-12" "pl" "t0" genOneFail (by decide)).2.2.2⟩


/-- C6: a webhook with failed signature verification is rejected with 400 and
mutates nothing (the check precedes every state mutation); a verified event
of an unrecognized kind is acknowledged and mutates nothing. -/
theorem claim_C6_webhook_signature_first (st : PaySt) :
    (∀ e, stripe_webhook st (.error e) =
      (.error ⟨400, "Webhook signature invalida: " ++ e⟩, st)) ∧
    (∀ ev : StripeEvent, ev.etype ≠ "checkout.session.completed" →
      ev.etype ≠ "customer.subscription.deleted" →
      ev.etype ≠ "invoice.payment_failed" →
      stripe_webhook st (.ok ev) = (.ok ⟨true⟩, st)) := by
  refine ⟨fun e => rfl, fun ev h1 h2 h3 => ?_⟩
  unfold stripe_webhook
  simp [h1, h2, h3]


theorem claim_C6_witness :
    stripe_webhook payStA (.error "firma") =
      (.error ⟨400, "Webhook signature invalida: firma"⟩, payStA) ∧
    eventUnknown.etype = "payment_intent.created" ∧
    stripe_webhook payStA (.ok eventUnknown) = (.ok ⟨true⟩, payStA) :=
  ⟨(claim_C6_webhook_signature_first payStA).1 "firma", rfl,
   (claim_C6_webhook_signature_first payStA).2 eventUnknown
     (by decide) (by decide) (by decide)⟩


/-- Clearing the token on the matched profile leaves no profile holding it,
when the token matched exactly one profile row. -/
theorem clear_token_filter (profiles : List TgProfile) (token : String)
    (p0 : TgProfile)
    (h : profiles.filter (fun p => decide (p.telegram_link_token = some token)) = [p0]) :
    (profiles.map (fun p => if p.id = p0.id then
        { p with telegram_link_token := none } else p)).filter
      (fun p => decide (p.telegram_link_token = some token)) = [] := by
  rw [List.filter_eq_nil_iff]
  intro q hq
  rcases List.mem_map.mp hq with ⟨p, hp, hmap⟩
  by_cases hid : p.id = p0.id
  · rw [if_pos hid] at hmap
    rw [← hmap]
    simp
  · rw [if_neg hid] at hmap
    rw [← hmap]
    simp only [decide_eq_true_eq]
    intro htok
    have hmem : p ∈ profiles.filter
        (fun p => decide (p.telegram_link_token = some token)) :=
      List.mem_filter.mpr ⟨hp, by simp [htok]⟩
    rw [h] at hmem
    simp only [List.mem_singleton] at hmem
    exact hid (by rw [hmem])


/-- C7: a link token is one-shot — after a successful `/start <token>`
connection the matched profile's token is cleared, so a second `/start` with
the same token matches no profile, is rejected with the invalid-code reply,
and neither creates nor updates any connection. -/
theorem claim_C7_link_token_one_shot (st : TgSt) (chatId : ℤ)
    (username firstName token now : String) (p0 : TgProfile)
    (huniq : st.profiles.filter
      (fun p => decide (p.telegram_link_token = some token)) = [p0]) :
    (handleStartToken st chatId username firstName token now).2 =
      .connected p0.first_name ∧
    (handleStartToken st chatId username firstName token now).1.profiles.filter
      (fun p => decide (p.telegram_link_token = some token)) = [] ∧
    (∀ (chatId2 : ℤ) (username2 firstName2 now2 : String),
      handleStartToken (handleStartToken st chatId username firstName token now).1
        chatId2 username2 firstName2 token now2 =
        ((handleStartToken st chatId username firstName token now).1,
         .invalidCode)) := by
  have hfe : (handleStartToken st chatId username firstName token now).1.profiles.filter
      (fun p => decide (p.telegram_link_token = some token)) = [] := by
    unfold handleStartToken
    rw [huniq]
    exact clear_token_filter st.profiles token p0 huniq
  refine ⟨?_, hfe, ?_⟩
  · unfold handleStartToken
    rw [huniq]
  · intro chatId2 username2 firstName2 now2
    conv_lhs => rw [handleStartToken]
    rw [hfe]


theorem claim_C7_witness :
    tgSt0.profiles.filter
      (fun p => decide (p.telegram_link_token = some "tok123")) =
      [⟨1, "Anna", some "tok123"⟩] ∧
    (handleStartToken tgSt0 99 "user" "U" "tok123" "t0").2 = .connected "Anna" ∧
    (handleStartToken tgSt0 99 "user" "U" "tok123" "t0").1.profiles.filter
      (fun p => decide (p.telegram_link_token = some "tok123")) = [] ∧
    handleStartToken (handleStartToken tgSt0 99 "user" "U" "tok123" "t0").1
        98 "user2" "V" "tok123" "t1" =
      ((handleStartToken tgSt0 99 "user" "U" "tok123" "t0").1, .invalidCode) :=
  ⟨rfl,
   (claim_C7_link_token_one_shot tgSt0 99 "user" "U" "tok123" "t0"
     ⟨1, "Anna", some "tok123"⟩ rfl).1,
   (claim_C7_link_token_one_shot tgSt0 99 "user" "U" "tok123" "t0"
     ⟨1, "Anna", some "tok123"⟩ rfl).2.1,
   (claim_C7_link_token_one_shot tgSt0 99 "user" "U" "tok123" "t0"
     ⟨1, "Anna", some "tok123"⟩ rfl).2.2 98 "user2" "V" "t1"⟩


end Astra
